import Mathlib

/-!
Shallow embedding of the Tsuki Coffee loyalty-program backend
(member / product / transaction controllers over a document store),
together with theorems checking the specification's claims against it.

Numbers that the JavaScript source handles as `Number` are embedded as
exact rationals (`ℚ`); dates are embedded as rational timestamps on a
linear timeline.  The document store is embedded as in-memory lists of
records, and each controller is a pure function from a database state
and a request body to a response and a new database state.
-/

namespace Tsuki

/-- JS runtime value, restricted to the shapes the controllers inspect
with `typeof` checks: a number, a string, `null`, or `undefined`. -/
inductive JSVal where
  | num (q : ℚ)
  | str (s : String)
  | jsNull
  | undef
deriving DecidableEq, Repr

/-- The `typeof v === "number"` check of the source. -/
def JSVal.isNumber : JSVal → Bool
  | .num _ => true
  | _ => false

/-- Numeric value of a JS value (only consulted after an `isNumber` guard). -/
def JSVal.toQ : JSVal → ℚ
  | .num q => q
  | _ => 0

/-- Truthiness of an optional string field (`null`/absent and `""` are falsy). -/
def strTruthy : Option String → Bool
  | none => false
  | some s => decide (s ≠ "")

/-- Hexadecimal character test. -/
def isHexChar (c : Char) : Bool :=
  c.isDigit || (decide ('a' ≤ c) && decide (c ≤ 'f')) || (decide ('A' ≤ c) && decide (c ≤ 'F'))

/-- Well-formedness of a document identifier, as checked by
`mongoose.Types.ObjectId.isValid` on a string: 24 hexadecimal characters. -/
def isValidObjectId (s : String) : Bool :=
  decide (s.length = 24) && s.data.all isHexChar

/-- JS string `trim`: strip leading and trailing whitespace. -/
def jstrim (s : String) : String :=
  ⟨((s.data.dropWhile Char.isWhitespace).reverse.dropWhile Char.isWhitespace).reverse⟩

/-- ClubCategory record (models/ClubCategory.js). -/
structure ClubCategory where
  id : String
  name : String
  description : String
deriving DecidableEq, Repr

/-- Member record (models/Member.js).  `points` is `some p` when the stored
value is numeric and `none` when it is absent or non-numeric (the schema
defaults it to `0`, but the transaction controller still guards for the
non-numeric case with a `typeof` check). -/
structure Member where
  id : String
  name : String
  phone : String
  clubCategory : Option String
  validUntil : ℚ
  points : Option ℚ
deriving DecidableEq, Repr

/-- Product record (models/Product.js).  The schema's name field is
`product_name` (required, trim, unique, default ""), although the
controller reads and writes the path `name`, which the schema does not
declare; under Mongoose strict mode writes to that undeclared path are
dropped, so a stored document carries only `product_name`. -/
structure Product where
  id : String
  product_name : String
  price : ℚ
  pointValue : ℚ
deriving DecidableEq, Repr

/-- Transaction record (models/Transaction.js). -/
structure Transaction where
  id : String
  memberId : String
  productId : String
  quantity : ℚ
  totalPrice : ℚ
  pointsAdded : ℚ
  createdAt : ℚ
deriving DecidableEq, Repr

/-- The document store: one collection per entity kind. -/
structure DB where
  members : List Member
  products : List Product
  transactions : List Transaction
  categories : List ClubCategory
deriving DecidableEq, Repr

/-- `Member.findById`. -/
def findMemberById (db : DB) (i : String) : Option Member :=
  db.members.find? (fun m => decide (m.id = i))

/-- `Product.findById`. -/
def findProductById (db : DB) (i : String) : Option Product :=
  db.products.find? (fun p => decide (p.id = i))

/-- `Member.findOne({phone})`. -/
def findMemberByPhone (db : DB) (ph : String) : Option Member :=
  db.members.find? (fun m => decide (m.phone = ph))

/-- `ClubCategory.findOne({name})`. -/
def findCategoryByName (db : DB) (n : String) : Option ClubCategory :=
  db.categories.find? (fun c => decide (c.name = n))

/-- `Product.findOne({ name: n })`.  `name` is not a path of the Product
schema (its name field is `product_name`), so the condition never compares
against a stored name.  Under the default `strictQuery` of mongoose 6 —
the version the comments in config/db.js target — the unknown path is
stripped from the filter and the query degenerates to `findOne({})`: the
first stored product, if any.  (Under the mongoose 7 default the
unstripped path would instead match no document; the theorems below
evaluate this lookup only on an empty collection, where the two behaviors
agree.) -/
def findProductByName (db : DB) (_n : String) : Option Product :=
  db.products.head?

/-- `Product.findOne({ name: n, _id: {$ne: id} })` of editProduct.  As in
`findProductByName` the `name` path is not in the schema and is stripped
under mongoose 6 strictQuery, leaving `findOne({_id: {$ne: id}})`: the
first stored product other than the one being edited, whatever its name. -/
def findOtherProductByName (db : DB) (_n : String) (i : String) : Option Product :=
  db.products.find? (fun p => decide (p.id ≠ i))

/-- Schema validation run by `save()` on a Product document: `product_name`
is a required String path, and for mongoose a required string must be
non-empty.  (`price` and `pointValue` carry `min: 0`, but the controller
guards already ensure that.) -/
def productValid (p : Product) : Bool := decide (p.product_name ≠ "")

/-- Persisting an updated member document (`member.save()`): the stored
record with the same identifier is replaced. -/
def saveMember (db : DB) (m : Member) : DB :=
  { db with members := db.members.map (fun x => if x.id = m.id then m else x) }

/-- Persisting an updated product document (`product.save()`). -/
def saveProduct (db : DB) (p : Product) : DB :=
  { db with products := db.products.map (fun x => if x.id = p.id then p else x) }

/-- Outcome of a controller call: `ok` is delivered as a 200 response with
the payload, `err` carries the HTTP status code and the error message. -/
inductive ApiResult (α : Type) where
  | ok (payload : α)
  | err (status : Nat) (message : String)
deriving DecidableEq, Repr

/-- Request body of POST /transactions, after JS destructuring defaults
`{ memberId = null, productId = null, quantity = 1 }`. -/
structure TxBody where
  memberId : Option String := none
  productId : Option String := none
  quantity : JSVal := .num 1
deriving DecidableEq, Repr

/-- transactionController.addTransaction.  `now` is the current time and
`freshId` the identifier the store assigns to the new document. -/
def addTransaction (now : ℚ) (freshId : String) (db : DB) (body : TxBody) :
    ApiResult Transaction × DB :=
  if (!strTruthy body.memberId || !isValidObjectId (body.memberId.getD "")) then
    (.err 400 "Valid memberId is required.", db)
  else if (!strTruthy body.productId || !isValidObjectId (body.productId.getD "")) then
    (.err 400 "Valid productId is required.", db)
  else if (!body.quantity.isNumber || decide (body.quantity.toQ < 1)) then
    (.err 400 "Quantity must be a positive integer.", db)
  else
    match findMemberById db (body.memberId.getD "") with
    | none => (.err 404 "Member not found.", db)
    | some member =>
      if member.validUntil < now then
        (.err 400 "Membership expired.", db)
      else
        match findProductById db (body.productId.getD "") with
        | none => (.err 404 "Product not found.", db)
        | some product =>
          let q := body.quantity.toQ
          let totalPrice := product.price * q
          let pointsAdded := product.pointValue * q
          let t : Transaction :=
            { id := freshId, memberId := member.id, productId := product.id,
              quantity := q, totalPrice := totalPrice, pointsAdded := pointsAdded,
              createdAt := now }
          let db1 : DB := { db with transactions := db.transactions ++ [t] }
          let newPoints : ℚ :=
            match member.points with
            | some p => p + pointsAdded
            | none => pointsAdded
          (.ok t, saveMember db1 { member with points := some newPoints })

/-- Parsed transaction filter body `{ memberId, productId, dateFrom, dateTo }`;
dates are carried as parsed timestamps. -/
structure TxFilterBody where
  memberId : Option String := none
  productId : Option String := none
  dateFrom : Option ℚ := none
  dateTo : Option ℚ := none
deriving DecidableEq, Repr

/-- The `req.query.filter` input of GET /transactions: absent, a string that
fails `JSON.parse`, or a successfully parsed filter object. -/
inductive FilterQuery where
  | absent
  | malformed
  | parsed (f : TxFilterBody)
deriving DecidableEq, Repr

/-- The query document handed to `Transaction.find`: optional equality
constraints on `memberId` / `productId` and optional inclusive bounds on
`createdAt` (`$gte` / `$lte`). -/
structure MongoTxFilter where
  memberId : Option String := none
  productId : Option String := none
  createdFrom : Option ℚ := none
  createdTo : Option ℚ := none
deriving DecidableEq, Repr

/-- Filter construction of getTransactions: each field of the parsed body is
copied into the query only under the source's guards; a malformed or absent
filter yields the empty query. -/
def buildTxFilter : FilterQuery → MongoTxFilter
  | .absent => {}
  | .malformed => {}
  | .parsed f =>
    let f1 : MongoTxFilter := {}
    let f2 := if strTruthy f.memberId && isValidObjectId (f.memberId.getD "")
      then { f1 with memberId := f.memberId } else f1
    let f3 := if strTruthy f.productId && isValidObjectId (f.productId.getD "")
      then { f2 with productId := f.productId } else f2
    let f4 := match f.dateFrom with
      | some d => { f3 with createdFrom := some d }
      | none => f3
    let f5 := match f.dateTo with
      | some d => { f4 with createdTo := some d }
      | none => f4
    f5

/-- Whether a stored transaction satisfies the query document. -/
def txMatches (f : MongoTxFilter) (t : Transaction) : Bool :=
  (match f.memberId with | some m => decide (t.memberId = m) | none => true) &&
  (match f.productId with | some p => decide (t.productId = p) | none => true) &&
  (match f.createdFrom with | some d => decide (d ≤ t.createdAt) | none => true) &&
  (match f.createdTo with | some d => decide (t.createdAt ≤ d) | none => true)

/-- Result order of getTransactions: `sort({createdAt: -1})`, newest first. -/
def createdDescOrder (a b : Transaction) : Prop := b.createdAt ≤ a.createdAt

instance : DecidableRel createdDescOrder :=
  fun a b => inferInstanceAs (Decidable (b.createdAt ≤ a.createdAt))

instance : IsTotal Transaction createdDescOrder :=
  ⟨fun a b => le_total b.createdAt a.createdAt⟩

instance : IsTrans Transaction createdDescOrder :=
  ⟨fun _ _ _ hab hbc => le_trans hbc hab⟩

/-- transactionController.getTransactions: the stored transactions matching
the constructed filter, sorted descending by creation time. -/
def getTransactions (db : DB) (q : FilterQuery) : List Transaction :=
  List.insertionSort createdDescOrder (db.transactions.filter (txMatches (buildTxFilter q)))

/-- Request body of POST /members, after JS destructuring defaults. -/
structure MemberBody where
  name : String := ""
  phone : String := ""
  clubCategory : Option String := none
  validUntil : Option ℚ := none
  points : JSVal := .num 0
deriving DecidableEq, Repr

/-- Date arithmetic `now.setFullYear(now.getFullYear() + 1)` of the source,
embedded as a one-year offset on the rational timeline. -/
def oneYearLater (now : ℚ) : ℚ := now + 31536000000

/-- Club-category resolution shared by addMember and editMember: a falsy
category field is skipped (`some none`), a truthy one must resolve to an
existing category by name (`none` signals the 400 failure). -/
def resolveClubCategory (db : DB) (c : Option String) : Option (Option String) :=
  match c with
  | some s =>
    if s ≠ "" then
      match findCategoryByName db s with
      | some cat => some (some cat.id)
      | none => none
    else some none
  | none => some none

/-- memberController.addMember. -/
def addMember (now : ℚ) (freshId : String) (db : DB) (body : MemberBody) :
    ApiResult Member × DB :=
  if (!decide (jstrim body.name ≠ "") || !decide (jstrim body.phone ≠ "")) then
    (.err 400 "Name and phone are required.", db)
  else
    match findMemberByPhone db (jstrim body.phone) with
    | some _ => (.err 400 "Member ini sudah terdaftar.", db)
    | none =>
      match resolveClubCategory db body.clubCategory with
      | none => (.err 400 "ClubCategory not found.", db)
      | some clubCategoryId =>
        let validUntilDate : ℚ :=
          match body.validUntil with
          | some v => v
          | none => oneYearLater now
        let pts : ℚ :=
          if body.points.isNumber && decide (0 ≤ body.points.toQ)
            then body.points.toQ else 0
        let m : Member :=
          { id := freshId, name := jstrim body.name, phone := jstrim body.phone,
            clubCategory := clubCategoryId, validUntil := validUntilDate,
            points := some pts }
        (.ok m, { db with members := db.members ++ [m] })

/-- Request body of PUT /members/:id; every field is optional and `some` only
when supplied with the type the source's guard looks for. -/
structure EditMemberBody where
  name : Option String := none
  phone : Option String := none
  clubCategory : Option String := none
  validUntil : Option ℚ := none
  points : JSVal := .undef
deriving DecidableEq, Repr

/-- memberController.editMember. -/
def editMember (db : DB) (memberId : String) (body : EditMemberBody) :
    ApiResult Member × DB :=
  match findMemberById db memberId with
  | none => (.err 404 "Member not found.", db)
  | some member =>
    let m1 := match body.name with
      | some n => { member with name := jstrim n }
      | none => member
    let m2 := match body.phone with
      | some ph => { m1 with phone := jstrim ph }
      | none => m1
    match resolveClubCategory db body.clubCategory with
    | none => (.err 400 "ClubCategory not found.", db)
    | some catUpdate =>
      let m3 := match catUpdate with
        | some cid => { m2 with clubCategory := some cid }
        | none => m2
      let m4 := match body.validUntil with
        | some v => { m3 with validUntil := v }
        | none => m3
      let m5 := if body.points.isNumber && decide (0 ≤ body.points.toQ)
        then { m4 with points := some body.points.toQ } else m4
      (.ok m5, saveMember db m5)

/-- Response shape of POST /members/:id/redeem. -/
structure RedeemOut where
  status : Nat
  success : Bool
  message : String
deriving DecidableEq, Repr

/-- JS comparison `member.points < q` when the stored value may be
non-numeric: an absent or non-numeric left side compares false. -/
def jsLtPoints : Option ℚ → ℚ → Bool
  | some p, q => decide (p < q)
  | none, _ => false

/-- memberController.redeemPoints; `points` is the request body field. -/
def redeemPoints (now : ℚ) (db : DB) (memberId : String) (points : JSVal) :
    RedeemOut × DB :=
  if (!points.isNumber || decide (points.toQ ≤ 0)) then
    (⟨400, false, "Points must be a positive number."⟩, db)
  else
    match findMemberById db memberId with
    | none => (⟨404, false, "Member not found."⟩, db)
    | some member =>
      if member.validUntil < now then
        (⟨400, false, "Membership expired."⟩, db)
      else if jsLtPoints member.points points.toQ then
        (⟨400, false, "Insufficient points."⟩, db)
      else if points.toQ < 10 then
        (⟨400, false, "Minimum redeem points is 10."⟩, db)
      else
        let newPoints : Option ℚ :=
          match member.points with
          | some p => some (p - points.toQ)
          | none => none
        (⟨200, true, "Points redeemed successfully."⟩,
          saveMember db { member with points := newPoints })

/-- Request body of POST /products, after JS destructuring defaults. -/
structure ProductBody where
  name : String := ""
  price : JSVal := .num 0
  pointValue : JSVal := .num 1
deriving DecidableEq, Repr

/-- productController.addProduct.  The document is built from
`new Product({name, price, pointValue})`: strict mode drops the undeclared
`name` path, so `product_name` keeps its schema default "", and `save()`
then fails the required-path validation, which the catch-all converts to
the generic 500. -/
def addProduct (freshId : String) (db : DB) (body : ProductBody) :
    ApiResult Product × DB :=
  if ¬ jstrim body.name ≠ "" then
    (.err 400 "Product name is required.", db)
  else if (!body.price.isNumber || decide (body.price.toQ < 0)) then
    (.err 400 "Product price must be a non-negative number.", db)
  else if (!body.pointValue.isNumber || decide (body.pointValue.toQ < 0)) then
    (.err 400 "Product pointValue must be a non-negative number.", db)
  else
    match findProductByName db (jstrim body.name) with
    | some _ => (.err 400 "Product name already exists.", db)
    | none =>
      let p : Product :=
        { id := freshId, product_name := "",
          price := body.price.toQ, pointValue := body.pointValue.toQ }
      if productValid p then (.ok p, { db with products := db.products ++ [p] })
      else (.err 500 "Failed to add product.", db)

/-- Request body of PUT /products/:id. -/
structure EditProductBody where
  name : Option String := none
  price : JSVal := .undef
  pointValue : JSVal := .undef
deriving DecidableEq, Repr

/-- productController.editProduct.  When a non-empty trimmed name is
supplied, the (degenerate) duplicate lookup gates the update, after which
`product.name = name.trim()` assigns to the undeclared path and is ignored
by strict mode, leaving the document's `product_name` unchanged; `save()`
re-runs schema validation. -/
def editProduct (db : DB) (productId : String) (body : EditProductBody) :
    ApiResult Product × DB :=
  match findProductById db productId with
  | none => (.err 404 "Product not found.", db)
  | some product =>
    let nameStep : Option Product :=
      match body.name with
      | some n =>
        if jstrim n ≠ "" then
          match findOtherProductByName db (jstrim n) productId with
          | some _ => none
          | none => some product
        else some product
      | none => some product
    match nameStep with
    | none => (.err 400 "Product name already exists.", db)
    | some p1 =>
      let p2 := if body.price.isNumber && decide (0 ≤ body.price.toQ)
        then { p1 with price := body.price.toQ } else p1
      let p3 := if body.pointValue.isNumber && decide (0 ≤ body.pointValue.toQ)
        then { p2 with pointValue := body.pointValue.toQ } else p2
      if productValid p3 then (.ok p3, saveProduct db p3)
      else (.err 500 "Failed to edit product.", db)

/-- HTTP method of a request, restricted to those the app registers. -/
inductive HttpMethod where
  | get | post | put
deriving DecidableEq, Repr

/-- Handler a request is dispatched to by app.js and the three routers. -/
inductive RouteTarget where
  | healthCheck
  | memberAdd | memberList | memberSearch | memberEdit | memberValidity | memberRedeem
  | productAdd | productList | productEdit
  | transactionAdd | transactionList
  | notFound
deriving DecidableEq, Repr

/-- Routing table of app.js with memberRoutes, productRoutes and
transactionRoutes mounted; the path is its slash-separated segments.
Requests matching no registered route fall through to the 404 handler. -/
def route (m : HttpMethod) (path : List String) : RouteTarget :=
  match m, path with
  | .get, ["health"] => .healthCheck
  | .post, ["members"] => .memberAdd
  | .get, ["members"] => .memberList
  | .get, ["members", "search"] => .memberSearch
  | .put, ["members", _] => .memberEdit
  | .get, ["members", _, "validity"] => .memberValidity
  | .post, ["members", _, "redeem"] => .memberRedeem
  | .post, ["products"] => .productAdd
  | .get, ["products"] => .productList
  | .put, ["products", _] => .productEdit
  | .post, ["transactions"] => .transactionAdd
  | .get, ["transactions"] => .transactionList
  | _, _ => .notFound

/-- A response described by its status code, the `status` field of its JSON
body if present, and the `error` field if present. -/
structure SimpleRes where
  status : Nat
  statusField : Option String
  errorField : Option String
deriving DecidableEq, Repr

/-- Responses of the two request-independent handlers: the /health endpoint
and the 404 fallback.  All other targets delegate to a controller. -/
def staticResponse : RouteTarget → Option SimpleRes
  | .healthCheck => some ⟨200, some "ok", none⟩
  | .notFound => some ⟨404, none, some "Endpoint not found."⟩
  | _ => none

/-- Data-model invariant of the spec: no stored member has a negative
points balance (an absent or non-numeric stored value counts as zero). -/
def PointsInv (db : DB) : Prop := ∀ m ∈ db.members, 0 ≤ m.points.getD 0

/-- Data-model invariant of the spec: every stored product has a
non-negative point value. -/
def PointValueInv (db : DB) : Prop := ∀ p ∈ db.products, 0 ≤ p.pointValue

instance (db : DB) : Decidable (PointsInv db) :=
  inferInstanceAs (Decidable (∀ m ∈ db.members, 0 ≤ m.points.getD 0))

instance (db : DB) : Decidable (PointValueInv db) :=
  inferInstanceAs (Decidable (∀ p ∈ db.products, 0 ≤ p.pointValue))

/-- Transaction-filter semantics as the specification words it: restrict by
memberId only if it is a valid identifier, by productId only if it is a
valid identifier, and by an inclusive dateFrom/dateTo range on createdAt.
Stated from the spec for comparison with the implementation's
`buildTxFilter` and `txMatches`. -/
def specTxMatches (f : TxFilterBody) (t : Transaction) : Bool :=
  (match f.memberId with
   | some m => if m ≠ "" ∧ isValidObjectId m = true then decide (t.memberId = m) else true
   | none => true) &&
  (match f.productId with
   | some p => if p ≠ "" ∧ isValidObjectId p = true then decide (t.productId = p) else true
   | none => true) &&
  (match f.dateFrom with | some d => decide (d ≤ t.createdAt) | none => true) &&
  (match f.dateTo with | some d => decide (t.createdAt ≤ d) | none => true)

/-- Concrete member fixture: 7 points, membership valid until time 100. -/
def w1member : Member :=
  ⟨"aaaaaaaaaaaaaaaaaaaaaaaa", "Andi", "0811", none, 100, some 7⟩

/-- Concrete product fixture: price 10, point value 2. -/
def w1product : Product := ⟨"bbbbbbbbbbbbbbbbbbbbbbbb", "Latte", 10, 2⟩

/-- Concrete store holding `w1member` and `w1product`. -/
def w1db : DB := ⟨[w1member], [w1product], [], []⟩

/-- Concrete member fixture with 20 points. -/
def w2member : Member :=
  ⟨"cccccccccccccccccccccccc", "Budi", "0812", none, 100, some 20⟩

/-- Concrete store holding `w2member`. -/
def w2db : DB := ⟨[w2member], [], [], []⟩

/-- Concrete member fixture with 5 points. -/
def w3member : Member :=
  ⟨"dddddddddddddddddddddddd", "Citra", "0813", none, 100, some 5⟩

/-- Concrete store holding `w3member`. -/
def w3db : DB := ⟨[w3member], [], [], []⟩

/-! Helper lemmas shared by the claim theorems. -/

/-- A well-formed identifier is non-empty (it has 24 characters). -/
theorem ne_empty_of_validObjectId {s : String} (h : isValidObjectId s = true) :
    s ≠ "" := by
  intro he
  rw [he] at h
  exact absurd h (by decide)

/-- Replacing the record found by an id search leaves it the record the
search finds, provided the replacement keeps the identifier. -/
theorem find?_update_of_find? (l : List Member) (i : String) (m m' : Member)
    (h : l.find? (fun x => decide (x.id = i)) = some m) (hid : m'.id = m.id) :
    (l.map (fun x => if x.id = m'.id then m' else x)).find?
      (fun x => decide (x.id = i)) = some m' := by
  induction l with
  | nil => simp at h
  | cons a as ih =>
    by_cases hai : a.id = i
    · have hm : a = m := by
        rw [List.find?_cons_of_pos _ (by simp [hai])] at h
        exact Option.some.inj h
      subst hm
      rw [List.map_cons, if_pos hid.symm, List.find?_cons_of_pos _ (by simp [hid, hai])]
    · have h' : as.find? (fun x => decide (x.id = i)) = some m := by
        rw [List.find?_cons_of_neg _ (by simp [hai])] at h
        exact h
      have hmi : m.id = i := by simpa using List.find?_some h'
      have hane : ¬ a.id = m'.id := by
        intro hc
        exact hai (by rw [hc, hid, hmi])
      rw [List.map_cons, if_neg hane, List.find?_cons_of_neg _ (by simp [hai])]
      exact ih h'

/-- `findMemberById` after `saveMember`, when the saved record keeps the
identifier of the record previously found. -/
theorem findMemberById_saveMember (db : DB) (i : String) (m m' : Member)
    (h : findMemberById db i = some m) (hid : m'.id = m.id) :
    findMemberById (saveMember db m') i = some m' :=
  find?_update_of_find? db.members i m m' h hid

/-- Every member stored after a `saveMember` is the saved record or was
already stored. -/
theorem mem_of_mem_saveMember {db : DB} {m x : Member}
    (hx : x ∈ (saveMember db m).members) : x = m ∨ x ∈ db.members := by
  simp only [saveMember, List.mem_map] at hx
  obtain ⟨y, hy, hxy⟩ := hx
  by_cases h : y.id = m.id
  · rw [if_pos h] at hxy
    exact Or.inl hxy.symm
  · rw [if_neg h] at hxy
    exact Or.inr (hxy ▸ hy)

/-- C1: for every existing member, existing product and quantity passing
validation (quantity ≥ 1), addTransaction creates a transaction with
totalPrice = price * quantity and pointsAdded = pointValue * quantity in
exact arithmetic, and persists the member's points as the prior value plus
pointsAdded, an absent or non-numeric prior value counting as zero. -/
theorem addTransaction_computes (now : ℚ) (freshId : String) (db : DB)
    (mid pid : String) (q : ℚ) (member : Member) (product : Product)
    (hmid : isValidObjectId mid = true)
    (hpid : isValidObjectId pid = true)
    (hq : 1 ≤ q)
    (hmem : findMemberById db mid = some member)
    (hval : ¬ member.validUntil < now)
    (hprod : findProductById db pid = some product) :
    ∃ t db2,
      addTransaction now freshId db ⟨some mid, some pid, .num q⟩ = (.ok t, db2) ∧
      t.totalPrice = product.price * q ∧
      t.pointsAdded = product.pointValue * q ∧
      t.quantity = q ∧
      db2.transactions = db.transactions ++ [t] ∧
      findMemberById db2 mid =
        some { member with
               points := some (member.points.getD 0 + product.pointValue * q) } := by
  have hmne : mid ≠ "" := ne_empty_of_validObjectId hmid
  have hpne : pid ≠ "" := ne_empty_of_validObjectId hpid
  have hg1 : (!strTruthy (some mid) || !isValidObjectId mid) = false := by
    simp [strTruthy, hmne, hmid]
  have hg3 : (!(JSVal.num q).isNumber || decide (q < 1)) = false := by
    simp [JSVal.isNumber, not_lt.mpr hq]
  have hg2 : (!strTruthy (some pid) || !isValidObjectId pid) = false := by
    simp [strTruthy, hpne, hpid]
  have hidkeep : member.id = mid := by
    simpa using List.find?_some hmem
  unfold addTransaction
  simp only [hg1, hg2, hg3, Bool.false_eq_true, if_false, Option.getD_some, hmem, hprod,
    JSVal.toQ, if_neg hval]
  refine ⟨_, _, rfl, rfl, rfl, rfl, ?_, ?_⟩
  · simp [saveMember]
  · have hmem' : db.members.find? (fun x => decide (x.id = mid)) = some member := hmem
    refine Eq.trans (find?_update_of_find? db.members mid member _ hmem' rfl) ?_
    cases member.points with
    | none => simp
    | some p => simp

/-- Witness for C1: member with 7 points buys 3 units of a product with
price 10 and point value 2. -/
theorem addTransaction_computes_witness :
    isValidObjectId "aaaaaaaaaaaaaaaaaaaaaaaa" = true ∧
    isValidObjectId "bbbbbbbbbbbbbbbbbbbbbbbb" = true ∧
    (1 : ℚ) ≤ 3 ∧
    findMemberById w1db "aaaaaaaaaaaaaaaaaaaaaaaa" = some w1member ∧
    ¬ w1member.validUntil < 0 ∧
    findProductById w1db "bbbbbbbbbbbbbbbbbbbbbbbb" = some w1product ∧
    (∃ t db2,
      addTransaction 0 "t1" w1db
          ⟨some "aaaaaaaaaaaaaaaaaaaaaaaa", some "bbbbbbbbbbbbbbbbbbbbbbbb", .num 3⟩ =
        (.ok t, db2) ∧
      t.totalPrice = w1product.price * 3 ∧
      t.pointsAdded = w1product.pointValue * 3 ∧
      t.quantity = 3 ∧
      db2.transactions = w1db.transactions ++ [t] ∧
      findMemberById db2 "aaaaaaaaaaaaaaaaaaaaaaaa" =
        some { w1member with
               points := some (w1member.points.getD 0 + w1product.pointValue * 3) }) :=
  ⟨by decide, by decide, by decide, by decide, by decide, by decide,
    addTransaction_computes 0 "t1" w1db "aaaaaaaaaaaaaaaaaaaaaaaa"
      "bbbbbbbbbbbbbbbbbbbbbbbb" 3 w1member w1product (by decide) (by decide)
      (by decide) (by decide) (by decide) (by decide)⟩

/-- C2: for a stored member with numeric points balance p, redeemPoints on
success persists exactly p minus the requested amount and that new balance
is non-negative; on failure the store is unchanged. -/
theorem redeemPoints_safe (now : ℚ) (db : DB) (mid : String) (v : JSVal)
    (member : Member) (p : ℚ)
    (hmem : findMemberById db mid = some member)
    (hpts : member.points = some p) :
    ((redeemPoints now db mid v).1.success = true →
       0 ≤ p - v.toQ ∧
       findMemberById (redeemPoints now db mid v).2 mid =
         some { member with points := some (p - v.toQ) }) ∧
    ((redeemPoints now db mid v).1.success = false →
       (redeemPoints now db mid v).2 = db) := by
  unfold redeemPoints
  by_cases h1 : (!v.isNumber || decide (v.toQ ≤ 0)) = true
  · simp [h1]
  · rw [Bool.not_eq_true] at h1
    simp only [h1, Bool.false_eq_true, if_false, hmem]
    by_cases h2 : member.validUntil < now
    · simp [h2]
    · simp only [if_neg h2]
      by_cases h3 : jsLtPoints member.points v.toQ = true
      · simp [h3]
      · rw [Bool.not_eq_true] at h3
        simp only [h3, Bool.false_eq_true, if_false]
        by_cases h4 : v.toQ < 10
        · simp [h4]
        · simp only [if_neg h4, hpts]
          refine ⟨fun _ => ⟨?_, ?_⟩, fun hf => by simp at hf⟩
          · have hnl : ¬ (p < v.toQ) := by simpa [jsLtPoints, hpts] using h3
            linarith
          · exact findMemberById_saveMember db mid member _ hmem rfl

/-- Witness for C2: member with 20 points redeeming 15 (ends with 5). -/
theorem redeemPoints_safe_witness :
    findMemberById w2db "cccccccccccccccccccccccc" = some w2member ∧
    w2member.points = some 20 ∧
    (((redeemPoints 0 w2db "cccccccccccccccccccccccc" (.num 15)).1.success = true →
        0 ≤ (20 : ℚ) - (JSVal.num 15).toQ ∧
        findMemberById (redeemPoints 0 w2db "cccccccccccccccccccccccc" (.num 15)).2
            "cccccccccccccccccccccccc" =
          some { w2member with points := some ((20 : ℚ) - (JSVal.num 15).toQ) }) ∧
      ((redeemPoints 0 w2db "cccccccccccccccccccccccc" (.num 15)).1.success = false →
        (redeemPoints 0 w2db "cccccccccccccccccccccccc" (.num 15)).2 = w2db)) :=
  ⟨by decide, by decide,
    redeemPoints_safe 0 w2db "cccccccccccccccccccccccc" (.num 15) w2member 20
      (by decide) (by decide)⟩

/-- C3: redeemPoints checks its rules in source order with the first failure
winning: numeric and positive amount, member exists, membership not
expired, sufficient balance, then the minimum threshold of 10; each failure
has its own message and leaves the store unchanged, and the five messages
are pairwise distinct. -/
theorem redeemPoints_check_order (now : ℚ) (db : DB) (mid : String) (v : JSVal) :
    ((!v.isNumber || decide (v.toQ ≤ 0)) = true →
       redeemPoints now db mid v = (⟨400, false, "Points must be a positive number."⟩, db)) ∧
    ((!v.isNumber || decide (v.toQ ≤ 0)) = false →
       findMemberById db mid = none →
       redeemPoints now db mid v = (⟨404, false, "Member not found."⟩, db)) ∧
    (∀ member, (!v.isNumber || decide (v.toQ ≤ 0)) = false →
       findMemberById db mid = some member →
       member.validUntil < now →
       redeemPoints now db mid v = (⟨400, false, "Membership expired."⟩, db)) ∧
    (∀ member, (!v.isNumber || decide (v.toQ ≤ 0)) = false →
       findMemberById db mid = some member →
       ¬ member.validUntil < now →
       jsLtPoints member.points v.toQ = true →
       redeemPoints now db mid v = (⟨400, false, "Insufficient points."⟩, db)) ∧
    (∀ member, (!v.isNumber || decide (v.toQ ≤ 0)) = false →
       findMemberById db mid = some member →
       ¬ member.validUntil < now →
       jsLtPoints member.points v.toQ = false →
       v.toQ < 10 →
       redeemPoints now db mid v = (⟨400, false, "Minimum redeem points is 10."⟩, db)) ∧
    List.Pairwise (fun a b => a ≠ b)
      ["Points must be a positive number.", "Member not found.", "Membership expired.",
       "Insufficient points.", "Minimum redeem points is 10."] := by
  refine ⟨?_, ?_, ?_, ?_, ?_, by decide⟩
  · intro h1
    simp [redeemPoints, h1]
  · intro h1 hnone
    simp [redeemPoints, h1, hnone]
  · intro member h1 hsome h2
    simp [redeemPoints, h1, hsome, h2]
  · intro member h1 hsome h2 h3
    simp [redeemPoints, h1, hsome, h2, h3]
  · intro member h1 hsome h2 h3 h4
    simp [redeemPoints, h1, hsome, h2, h3, h4]

/-- Witness for C3: a member with 5 points requesting 10 fails with the
insufficient-points message (the balance check precedes the minimum-
threshold check), leaving the store unchanged. -/
theorem redeemPoints_check_order_witness :
    redeemPoints 0 w3db "dddddddddddddddddddddddd" (.num 10) =
      (⟨400, false, "Insufficient points."⟩, w3db) :=
  (redeemPoints_check_order 0 w3db "dddddddddddddddddddddddd" (.num 10)).2.2.2.1
    w3member (by decide) (by decide) (by decide) (by decide)

/-- Counterexample for C4: with a well-formed but nonexistent memberId and a
malformed productId, addTransaction reports the invalid-productId error,
not the member-not-found error the claim requires — the productId format
check runs before the member lookup. -/
theorem addTransaction_order_counterexample :
    isValidObjectId "cccccccccccccccccccccccc" = true ∧
    isValidObjectId "xyz" = false ∧
    findMemberById ⟨[], [], [], []⟩ "cccccccccccccccccccccccc" = none ∧
    addTransaction 0 "t1" ⟨[], [], [], []⟩
        ⟨some "cccccccccccccccccccccccc", some "xyz", .num 1⟩ =
      (.err 400 "Valid productId is required.", ⟨[], [], [], []⟩) ∧
    "Valid productId is required." ≠ "Member not found." := by decide

/-- C4 as amended: addTransaction checks, first failure winning: memberId
well-formed, then productId well-formed, then quantity a number ≥ 1, then
member exists, then membership not expired, then product exists; each
failure has its own message (pairwise distinct) and leaves the store
unchanged.  In particular a malformed productId is reported before a
nonexistent memberId. -/
theorem addTransaction_check_order (now : ℚ) (fid : String) (db : DB) (body : TxBody) :
    ((!strTruthy body.memberId || !isValidObjectId (body.memberId.getD "")) = true →
       addTransaction now fid db body = (.err 400 "Valid memberId is required.", db)) ∧
    ((!strTruthy body.memberId || !isValidObjectId (body.memberId.getD "")) = false →
       (!strTruthy body.productId || !isValidObjectId (body.productId.getD "")) = true →
       addTransaction now fid db body = (.err 400 "Valid productId is required.", db)) ∧
    ((!strTruthy body.memberId || !isValidObjectId (body.memberId.getD "")) = false →
       (!strTruthy body.productId || !isValidObjectId (body.productId.getD "")) = false →
       (!body.quantity.isNumber || decide (body.quantity.toQ < 1)) = true →
       addTransaction now fid db body = (.err 400 "Quantity must be a positive integer.", db)) ∧
    ((!strTruthy body.memberId || !isValidObjectId (body.memberId.getD "")) = false →
       (!strTruthy body.productId || !isValidObjectId (body.productId.getD "")) = false →
       (!body.quantity.isNumber || decide (body.quantity.toQ < 1)) = false →
       findMemberById db (body.memberId.getD "") = none →
       addTransaction now fid db body = (.err 404 "Member not found.", db)) ∧
    (∀ member,
       (!strTruthy body.memberId || !isValidObjectId (body.memberId.getD "")) = false →
       (!strTruthy body.productId || !isValidObjectId (body.productId.getD "")) = false →
       (!body.quantity.isNumber || decide (body.quantity.toQ < 1)) = false →
       findMemberById db (body.memberId.getD "") = some member →
       member.validUntil < now →
       addTransaction now fid db body = (.err 400 "Membership expired.", db)) ∧
    (∀ member,
       (!strTruthy body.memberId || !isValidObjectId (body.memberId.getD "")) = false →
       (!strTruthy body.productId || !isValidObjectId (body.productId.getD "")) = false →
       (!body.quantity.isNumber || decide (body.quantity.toQ < 1)) = false →
       findMemberById db (body.memberId.getD "") = some member →
       ¬ member.validUntil < now →
       findProductById db (body.productId.getD "") = none →
       addTransaction now fid db body = (.err 404 "Product not found.", db)) ∧
    List.Pairwise (fun a b => a ≠ b)
      ["Valid memberId is required.", "Valid productId is required.",
       "Quantity must be a positive integer.", "Member not found.",
       "Membership expired.", "Product not found."] := by
  refine ⟨?_, ?_, ?_, ?_, ?_, ?_, by decide⟩
  · intro h1
    simp [addTransaction, h1]
  · intro h1 h2
    simp [addTransaction, h1, h2]
  · intro h1 h2 h3
    simp [addTransaction, h1, h2, h3]
  · intro h1 h2 h3 h4
    simp [addTransaction, h1, h2, h3, h4]
  · intro member h1 h2 h3 h4 h5
    simp [addTransaction, h1, h2, h3, h4, h5]
  · intro member h1 h2 h3 h4 h5 h6
    simp [addTransaction, h1, h2, h3, h4, h5, h6]

/-- Witness for C4 as amended: the malformed-productId request of the
counterexample is decided by the productId format check. -/
theorem addTransaction_check_order_witness :
    addTransaction 0 "t1" ⟨[], [], [], []⟩
        ⟨some "cccccccccccccccccccccccc", some "xyz", .num 1⟩ =
      (.err 400 "Valid productId is required.", ⟨[], [], [], []⟩) :=
  (addTransaction_check_order 0 "t1" ⟨[], [], [], []⟩
      ⟨some "cccccccccccccccccccccccc", some "xyz", .num 1⟩).2.1
    (by decide) (by decide)

/-- C5: every operation that can change a member's points balance — member
creation, member edit, point redemption, transaction creation — preserves
the invariant that no stored balance is negative (given the data-model
invariant that stored point values of products are non-negative). -/
theorem points_never_negative (db : DB)
    (hm : PointsInv db) (hp : PointValueInv db) :
    (∀ now fid b, PointsInv (addMember now fid db b).2) ∧
    (∀ i b, PointsInv (editMember db i b).2) ∧
    (∀ now i v, PointsInv (redeemPoints now db i v).2) ∧
    (∀ now fid b, PointsInv (addTransaction now fid db b).2) := by
  refine ⟨?_, ?_, ?_, ?_⟩
  · intro now fid b
    simp only [addMember]
    split
    · exact hm
    · split
      · exact hm
      · split
        · exact hm
        · intro x hx
          rcases List.mem_append.mp hx with hx | hx
          · exact hm x hx
          · rcases List.mem_singleton.mp hx with rfl
            simp only [Option.getD_some]
            split
            · rename_i hguard
              exact of_decide_eq_true (Bool.and_eq_true .. |>.mp hguard).2
            · exact le_refl 0
  · intro i b
    simp only [editMember]
    split
    · exact hm
    · rename_i member hfind
      split
      · exact hm
      · rename_i catUpdate hcat
        intro x hx
        rcases mem_of_mem_saveMember hx with rfl | hx
        · split
          · rename_i hguard
            simp only [Option.getD_some]
            exact of_decide_eq_true (Bool.and_eq_true .. |>.mp hguard).2
          · have hmem : member ∈ db.members := List.mem_of_find?_eq_some hfind
            rcases b.validUntil with _ | v <;>
              rcases catUpdate with _ | cid <;>
              rcases b.phone with _ | ph <;>
              rcases b.name with _ | n <;>
              simpa using hm member hmem
        · exact hm x hx
  · intro now i v
    simp only [redeemPoints]
    split
    · exact hm
    · split
      · exact hm
      · rename_i member hfind
        split
        · exact hm
        · split
          · exact hm
          · split
            · exact hm
            · rename_i h3 h4
              intro x hx
              rcases mem_of_mem_saveMember hx with rfl | hx
              · rcases hpt : member.points with _ | p
                · simp [hpt]
                · simp only [hpt, Option.getD_some]
                  have hnl : ¬ (p < v.toQ) := by
                    simpa [jsLtPoints, hpt] using h3
                  have : v.toQ ≤ p := not_lt.mp hnl
                  linarith
              · exact hm x hx
  · intro now fid b
    simp only [addTransaction]
    split
    · exact hm
    · split
      · exact hm
      · split
        · exact hm
        · rename_i h1 h2 h3
          split
          · exact hm
          · rename_i member hfind
            split
            · exact hm
            · split
              · exact hm
              · rename_i product hpfind
                intro x hx
                rcases mem_of_mem_saveMember hx with rfl | hx
                · have h3f : (!b.quantity.isNumber || decide (b.quantity.toQ < 1)) = false := by
                    rwa [Bool.not_eq_true] at h3
                  have hq : 1 ≤ b.quantity.toQ := by
                    rcases Bool.or_eq_false_iff.mp h3f with ⟨_, hlt⟩
                    exact not_lt.mp (of_decide_eq_false hlt)
                  have hpv : 0 ≤ product.pointValue :=
                    hp product (List.mem_of_find?_eq_some hpfind)
                  have hadd : 0 ≤ product.pointValue * b.quantity.toQ :=
                    mul_nonneg hpv (by linarith)
                  have hmem : member ∈ db.members := List.mem_of_find?_eq_some hfind
                  have hold : 0 ≤ member.points.getD 0 := hm member hmem
                  rcases hpt : member.points with _ | p
                  · simpa [hpt] using hadd
                  · rw [hpt] at hold
                    simp only [hpt, Option.getD_some]
                    simpa using add_nonneg (by simpa using hold) hadd
                · exact hm x hx

/-- Witness for C5: the preservation theorem applied to a concrete store
satisfying both invariants, specialized to a concrete redemption. -/
theorem points_never_negative_witness :
    PointsInv w2db ∧ PointValueInv w2db ∧
    PointsInv (redeemPoints 0 w2db "cccccccccccccccccccccccc" (.num 15)).2 :=
  ⟨by decide, by decide,
    (points_never_negative w2db (by decide) (by decide)).2.2.1 0
      "cccccccccccccccccccccccc" (.num 15)⟩

/-- C6 evaluation at the failing input: on an empty store, creating a
product named "Latte" does not create it — strict mode drops the submitted
`name`, the document's required `product_name` keeps its empty default,
`save()` fails validation and the handler answers the generic 500 — and in
fact no addProduct call can ever succeed, so no stored product ever
carries a submitted name and the claimed name-equality duplicate rejection
is never performed. -/
theorem addProduct_schema_mismatch :
    addProduct "p1" ⟨[], [], [], []⟩ ⟨"Latte", .num 10, .num 2⟩ =
      (.err 500 "Failed to add product.", ⟨[], [], [], []⟩) ∧
    (∀ fid db body, ∃ st msg, (addProduct fid db body).1 = .err st msg) := by
  refine ⟨by decide, ?_⟩
  intro fid db body
  simp only [addProduct]
  split
  · exact ⟨400, _, rfl⟩
  · split
    · exact ⟨400, _, rfl⟩
    · split
      · exact ⟨400, _, rfl⟩
      · split
        · exact ⟨400, _, rfl⟩
        · rw [if_neg (by simp [productValid])]
          exact ⟨500, _, rfl⟩

/-- The filter built by getTransactions, written as one record: the id
constraints are kept only when truthy and well-formed, the date bounds are
copied verbatim. -/
theorem buildTxFilter_parsed (f : TxFilterBody) :
    buildTxFilter (.parsed f) =
      { memberId :=
          if (strTruthy f.memberId && isValidObjectId (f.memberId.getD "")) = true
            then f.memberId else none,
        productId :=
          if (strTruthy f.productId && isValidObjectId (f.productId.getD "")) = true
            then f.productId else none,
        createdFrom := f.dateFrom,
        createdTo := f.dateTo } := by
  rcases f with ⟨mi, pi, df, dt⟩
  simp only [buildTxFilter]
  rcases df with _ | d1 <;> rcases dt with _ | d2 <;> split_ifs <;> rfl

/-- C7: the transaction list is sorted descending by creation time; its
content is exactly the stored transactions matching the constructed
filter; a malformed filter payload builds the same empty filter as an
absent one, which every transaction matches; and the constructed filter
restricts exactly as the specification words it (memberId and productId
only when valid identifiers, inclusive date bounds). -/
theorem getTransactions_spec (db : DB) (q : FilterQuery) :
    List.Sorted createdDescOrder (getTransactions db q) ∧
    (getTransactions db q).Perm
      (db.transactions.filter (txMatches (buildTxFilter q))) ∧
    buildTxFilter .malformed = buildTxFilter .absent ∧
    (∀ t, txMatches (buildTxFilter .malformed) t = true) ∧
    (∀ f t, txMatches (buildTxFilter (.parsed f)) t = specTxMatches f t) := by
  refine ⟨?_, ?_, rfl, fun t => rfl, ?_⟩
  · exact List.sorted_insertionSort createdDescOrder _
  · exact List.perm_insertionSort createdDescOrder _
  · intro f t
    rw [buildTxFilter_parsed]
    rcases f with ⟨mi, pi, df, dt⟩
    rcases mi with _ | ms <;> rcases pi with _ | ps <;>
      simp only [txMatches, specTxMatches, strTruthy, Option.getD_some] <;>
      split_ifs <;>
      simp_all [Bool.and_eq_true, decide_eq_true_eq]

/-- C8 evaluation at the failing input: a quantity of 3/2 — a number that
is at least 1 but not an integer, lying strictly between 1 and 2 — passes
the quantity guard and the purchase is accepted, with totalPrice
10 · 3/2 = 15 and pointsAdded 2 · 3/2 = 3, although the guard's own error
message promises to require a positive integer. -/
theorem addTransaction_accepts_fractional_quantity :
    (1 : ℚ) < 3/2 ∧ (3/2 : ℚ) < 2 ∧
    (addTransaction 0 "t1" w1db
        ⟨some "aaaaaaaaaaaaaaaaaaaaaaaa", some "bbbbbbbbbbbbbbbbbbbbbbbb",
         .num (3/2)⟩).1 =
      .ok ⟨"t1", "aaaaaaaaaaaaaaaaaaaaaaaa", "bbbbbbbbbbbbbbbbbbbbbbbb",
           3/2, 15, 3, 0⟩ := by
  refine ⟨by norm_num, by norm_num, ?_⟩
  norm_num [addTransaction, w1db, w1member, w1product, findMemberById, findProductById,
    strTruthy, isValidObjectId, isHexChar, JSVal.isNumber, JSVal.toQ, List.find?]
  rw [if_neg (by decide), if_neg (by decide)]

/-- Counterexample for C9: GET /status is not a registered route — it falls
through to the 404 endpoint-not-found handler rather than answering 200
with status "ok". -/
theorem status_route_counterexample :
    route .get ["status"] = .notFound ∧
    staticResponse (route .get ["status"]) =
      some ⟨404, none, some "Endpoint not found."⟩ := by decide

/-- C9 as amended: GET /health answers 200 with status "ok", while GET
/status is unmatched and receives the 404 endpoint-not-found response. -/
theorem health_status_routes :
    route .get ["health"] = .healthCheck ∧
    staticResponse .healthCheck = some ⟨200, some "ok", none⟩ ∧
    route .get ["status"] = .notFound ∧
    staticResponse .notFound = some ⟨404, none, some "Endpoint not found."⟩ := by decide

/-- C10: a member-creation request that passes the name, phone,
duplicate-phone and club-category checks but supplies a negative or
non-numeric points value still succeeds, creating the member with a points
balance of zero. -/
theorem addMember_invalid_points_zero (now : ℚ) (fid : String) (db : DB)
    (body : MemberBody) (cid : Option String)
    (hname : jstrim (MemberBody.name body) ≠ "")
    (hphone : jstrim (MemberBody.phone body) ≠ "")
    (hdup : findMemberByPhone db (jstrim (MemberBody.phone body)) = none)
    (hcat : resolveClubCategory db (MemberBody.clubCategory body) = some cid)
    (hpts : ((MemberBody.points body).isNumber &&
             decide (0 ≤ (MemberBody.points body).toQ)) = false) :
    ∃ m, addMember now fid db body = (.ok m, { db with members := db.members ++ [m] }) ∧
      m.points = some 0 := by
  have hg : (!decide (jstrim (MemberBody.name body) ≠ "") ||
             !decide (jstrim (MemberBody.phone body) ≠ "")) = false := by
    simp [hname, hphone]
  simp only [addMember, hg, Bool.false_eq_true, if_false, hdup, hcat, hpts]
  exact ⟨_, rfl, rfl⟩

/-- Witness for C10: a request with points −5 creates the member with a
zero balance. -/
theorem addMember_invalid_points_zero_witness :
    jstrim "Dina" ≠ "" ∧
    jstrim "0815" ≠ "" ∧
    findMemberByPhone ⟨[], [], [], []⟩ (jstrim "0815") = none ∧
    resolveClubCategory ⟨[], [], [], []⟩ none = some none ∧
    ((JSVal.num (-5)).isNumber && decide (0 ≤ (JSVal.num (-5)).toQ)) = false ∧
    (∃ m, addMember 0 "m1" ⟨[], [], [], []⟩ ⟨"Dina", "0815", none, none, .num (-5)⟩ =
      (.ok m, { (⟨[], [], [], []⟩ : DB) with members := [] ++ [m] }) ∧
      m.points = some 0) :=
  ⟨by decide, by decide, by decide, by decide, by decide,
    addMember_invalid_points_zero 0 "m1" ⟨[], [], [], []⟩
      ⟨"Dina", "0815", none, none, .num (-5)⟩ none
      (by decide) (by decide) (by decide) (by decide) (by decide)⟩

end Tsuki
